import Mathlib

/-!
Verification of the `kwess` Questrade client library (`src/kwess/__init__.py`).

The development shallowly embeds the two algorithmic cores of the library —
the date-range chunking decorator `get_all` and the credential lifecycle of
`Trader.__init__` / `Trader.get_new_refresh_token` — together with the small
pure string helpers (`api_server` normalization, `stateFilter` normalization,
`object_to_qdstr` formatting, `expiry_date` serialization and parsing).

Modelling conventions:
* Instants and durations are integers counting microseconds (the resolution
  of Python `datetime` / `timedelta`).  `timedelta.days` is floor division
  by the number of microseconds in a day, which is `Int.fdiv`.
* Python `str` values are modelled as `List Char` (the sequence of code
  points), so that character-level slicing, formatting and parsing are
  directly executable.
* Effectful steps (file reads/writes, HTTP calls) are modelled by explicit
  environment records carrying each external outcome; the functions below
  reproduce the source's control flow over those outcomes.
-/


/-- Microseconds in one day (Python `timedelta(days=1)` in microseconds). -/
def usPerDay : Int := 86400000000

/-- The 29-day stride used by the `get_all` decorator
(`thirdy_days = td(days=29)`, line 206), in microseconds. -/
def stride : Int := 29 * usPerDay

/-- Python `timedelta.days`: the floor of the duration in whole days.
Python floor division on possibly negative values is `Int.fdiv`. -/
def daysOf (delta : Int) : Int := Int.fdiv delta usPerDay

/-- The `while` loop of `get_all.inner` (lines 210-221): starting from cursor
`c`, yield a 29-day chunk while more than 29 (floor) days remain, then yield
the final chunk `(c, e)` when at least one (floor) day remains. -/
def chunkLoop (c e : Int) : List (Int × Int) :=
  if 29 < daysOf (e - c) then
    (c, c + stride) :: chunkLoop (c + stride) e
  else if 1 ≤ daysOf (e - c) then
    [(c, e)]
  else
    []
termination_by (e - c).toNat
decreasing_by
  have h30 : 2592000000000 ≤ e - c := by
    have h : 29 < daysOf (e - c) := by assumption
    unfold daysOf usPerDay at h
    rw [Int.fdiv_eq_ediv _ (by decide)] at h
    omega
  simp only [stride, usPerDay]
  omega

/-- The chunk boundaries produced by `get_all.inner` (lines 198-221) for an
explicit end instant: a single chunk when the span is at most 29 floor days,
otherwise a first 29-day chunk followed by the loop. -/
def get_all_chunks (startdt enddt : Int) : List (Int × Int) :=
  if daysOf (enddt - startdt) ≤ 29 then
    [(startdt, enddt)]
  else
    (startdt, startdt + stride) :: chunkLoop (startdt + stride) enddt

/-- The full decorated generator: `enddatetime` defaults to the current
instant when omitted (lines 199-200), and each chunk yields one application
of the wrapped query `Q` (the calls `f(self, startdatetime=..., enddatetime=...)`). -/
def get_all_inner {α : Type} (Q : Int → Int → α) (startdt : Int)
    (enddtOpt : Option Int) (now : Int) : List α :=
  (get_all_chunks startdt (enddtOpt.getD now)).map (fun p => Q p.1 p.2)

/-- The partition shape asserted for the chunk boundaries: non-empty, starts
at `startdt`, ends at `enddt`, contiguous (each sub-range begins where the
previous one ended), monotonically increasing, every non-final sub-range
exactly 29 days long, and the final sub-range `(cursor, enddt)` present with
its tail `enddt - cursor` at least one day. -/
def ChunkListCovers (startdt enddt : Int) (L : List (Int × Int)) : Prop :=
  L ≠ [] ∧
  L.head?.map Prod.fst = some startdt ∧
  L.getLast?.map Prod.snd = some enddt ∧
  L.Chain' (fun p q : Int × Int => p.2 = q.1) ∧
  (∀ p ∈ L.dropLast, p.2 - p.1 = stride) ∧
  (∀ p ∈ L, p.1 < p.2) ∧
  (∀ p : Int × Int, L.getLast? = some p → usPerDay ≤ enddt - p.1)

/-- Python `str` modelled as its sequence of code points. -/
abbrev PyStr := List Char

/-- Python `s[:-1]` (used on `api_server` at lines 57 and 113): all but the
last character; the empty string stays empty. -/
def pyDropLast (s : PyStr) : PyStr := s.dropLast

/-- Python `str.lower`.  `Char.toLower` lowercases only ASCII; Python also
lowercases non-ASCII letters, but no non-ASCII character lowercases to the
ASCII `o` or `c` tested below, so the two agree on every observable of
`stateFilterParam`. -/
def pyLower (s : PyStr) : PyStr := s.map Char.toLower

/-- Python `str.startswith`. -/
def pyStartsWith (p s : PyStr) : Bool := p.isPrefixOf s

/-- Normalization of the `statefilter` argument in `get_account_orders`
(lines 397-402): keyed only on the first letter of the lowercased input,
defaulting to `All`; no input is rejected. -/
def stateFilterParam (statefilter : PyStr) : PyStr :=
  if pyStartsWith "o".data (pyLower statefilter) then "Open".data
  else if pyStartsWith "c".data (pyLower statefilter) then "Closed".data
  else "All".data

/-- A Python naive `datetime`: calendar fields plus microseconds. -/
structure Datetime where
  year : Nat
  month : Nat
  day : Nat
  hour : Nat
  minute : Nat
  second : Nat
  micro : Nat
  deriving DecidableEq

/-- Field ranges of a valid Python `datetime` (`datetime.MINYEAR` is 1 and
`MAXYEAR` is 9999; the day-in-month refinement is not needed by any claim). -/
def Datetime.Valid (e : Datetime) : Prop :=
  1 ≤ e.year ∧ e.year ≤ 9999 ∧ 1 ≤ e.month ∧ e.month ≤ 12 ∧
  1 ≤ e.day ∧ e.day ≤ 31 ∧ e.hour ≤ 23 ∧ e.minute ≤ 59 ∧
  e.second ≤ 59 ∧ e.micro ≤ 999999

instance (e : Datetime) : Decidable e.Valid := by
  unfold Datetime.Valid
  infer_instance

/-- Python compares naive datetimes field-lexicographically; on valid field
ranges this mixed-radix key realizes exactly that order. -/
def dtKey (e : Datetime) : Nat :=
  (((((e.year * 13 + e.month) * 32 + e.day) * 24 + e.hour) * 60
    + e.minute) * 60 + e.second) * 1000000 + e.micro

/-- Truncation of a datetime to whole seconds. -/
def dtFloorSec (e : Datetime) : Datetime :=
  { e with micro := 0 }

/-- An ASCII digit character. -/
def digitChar9 (d : Nat) : Char := Char.ofNat (48 + d)

/-- The numeric value of an ASCII digit character, if it is one. -/
def digitVal? (c : Char) : Option Nat :=
  if 48 ≤ c.toNat ∧ c.toNat ≤ 57 then some (c.toNat - 48) else none

/-- Two-digit zero-padded decimal (strftime `%m`, `%d`, `%H`, `%M`, `%S`). -/
def pad2 (n : Nat) : List Char := [digitChar9 (n / 10), digitChar9 (n % 10)]

/-- Four-digit zero-padded decimal (strftime `%Y`). -/
def pad4 (n : Nat) : List Char :=
  [digitChar9 (n / 1000), digitChar9 (n / 100 % 10),
   digitChar9 (n / 10 % 10), digitChar9 (n % 10)]

/-- Six-digit zero-padded decimal (the `.ffffff` microsecond field). -/
def pad6 (n : Nat) : List Char :=
  [digitChar9 (n / 100000), digitChar9 (n / 10000 % 10), digitChar9 (n / 1000 % 10),
   digitChar9 (n / 100 % 10), digitChar9 (n / 10 % 10), digitChar9 (n % 10)]

/-- The `YYYY-MM-DD HH:MM:SS` part of Python `str(datetime)`. -/
def strOfDatetimeSec (e : Datetime) : PyStr :=
  pad4 e.year ++ '-' :: pad2 e.month ++ '-' :: pad2 e.day ++ ' ' ::
  pad2 e.hour ++ ':' :: pad2 e.minute ++ ':' :: pad2 e.second

/-- Python `str(datetime)`: `YYYY-MM-DD HH:MM:SS`, with `.ffffff` appended
only when the microsecond component is nonzero. -/
def strOfDatetime (e : Datetime) : PyStr :=
  strOfDatetimeSec e ++ (if e.micro = 0 then [] else '.' :: pad6 e.micro)

/-- Python `s[:-7]`: drop the last 7 characters (empty result if shorter). -/
def pySliceToMinus7 (l : PyStr) : PyStr := l.take (l.length - 7)

/-- Models `rd["expiry_date"] = str(self.expiry_date)[:-7]` (line 129): the
serialized expiry written into `accessToken.json`. -/
def persistExpiryString (e : Datetime) : PyStr :=
  pySliceToMinus7 (strOfDatetime e)

/-- Parse exactly two ASCII digits. -/
def parse2 : PyStr → Option (Nat × PyStr)
  | c1 :: c2 :: rest =>
    match digitVal? c1, digitVal? c2 with
    | some d1, some d2 => some (d1 * 10 + d2, rest)
    | _, _ => none
  | _ => none

/-- Parse exactly four ASCII digits. -/
def parse4 : PyStr → Option (Nat × PyStr)
  | c1 :: c2 :: c3 :: c4 :: rest =>
    match digitVal? c1, digitVal? c2, digitVal? c3, digitVal? c4 with
    | some d1, some d2, some d3, some d4 =>
      some (((d1 * 10 + d2) * 10 + d3) * 10 + d4, rest)
    | _, _, _, _ => none
  | _ => none

/-- Consume one expected character. -/
def expectChar (c : Char) : PyStr → Option PyStr
  | c' :: rest => if c' = c then some rest else none
  | [] => none

/-- Python `datetime.strptime(s, '%Y-%m-%d %X')` (line 61; `%X` is
`%H:%M:%S`) on the fixed-width strings the serializer produces: four-digit
year, two-digit zero-padded fields, matching separators, no trailing text;
the result carries microsecond 0.  (CPython additionally range-checks the
parsed fields; on the serializer's image of valid datetimes that check
always passes, and on the truncated corrupt form parsing already fails
structurally, so it is immaterial here.) -/
def strptimeX (l : PyStr) : Option Datetime :=
  match parse4 l with
  | none => none
  | some (y, l) =>
  match expectChar '-' l with
  | none => none
  | some l =>
  match parse2 l with
  | none => none
  | some (m, l) =>
  match expectChar '-' l with
  | none => none
  | some l =>
  match parse2 l with
  | none => none
  | some (d, l) =>
  match expectChar ' ' l with
  | none => none
  | some l =>
  match parse2 l with
  | none => none
  | some (h, l) =>
  match expectChar ':' l with
  | none => none
  | some l =>
  match parse2 l with
  | none => none
  | some (mi, l) =>
  match expectChar ':' l with
  | none => none
  | some l =>
  match parse2 l with
  | none => none
  | some (s, l) =>
  if l = [] then some ⟨y, m, d, h, mi, s, 0⟩ else none

/-- Python `s[-2:]`: the last two characters. -/
def pyLastTwo (l : PyStr) : PyStr := l.drop (l.length - 2)

/-- Models `dto.replace(tzinfo=timezone.utc)` (line 303): an aware copy of
the unchanged fields paired with a UTC marker.  The caller discards it. -/
def replaceTzinfoUtc (dto : Datetime) : Datetime × Bool := (dto, true)

/-- The `%Y-%m-%dT%X` part of `object_to_qdstr`'s format string: the naive
datetime's own fields, zero-padded, joined with `T`. -/
def qdBase (dto : Datetime) : PyStr :=
  pad4 dto.year ++ '-' :: pad2 dto.month ++ '-' :: pad2 dto.day ++ 'T' ::
  pad2 dto.hour ++ ':' :: pad2 dto.minute ++ ':' :: pad2 dto.second

/-- The strftime call of line 305: the format string is
`"%Y-%m-%dT%X" + off[:3] + ":" + off[-2:]`, and the offset fragments
contain no `%` directives, so they pass through verbatim. -/
def qdStrftime (dto : Datetime) (off : PyStr) : PyStr :=
  qdBase dto ++ off.take 3 ++ ':' :: pyLastTwo off

/-- Models `Trader.object_to_qdstr` (lines 287-306).  `localOffset` is
`time.strftime("%z")`, the local UTC offset string such as `"-0500"`. -/
def object_to_qdstr (localOffset : PyStr) (dto : Datetime) (gmt : Bool) : PyStr :=
  let utcoffset := localOffset
  if gmt then
    let _aware := replaceTzinfoUtc dto
    qdStrftime dto ('+' :: '0' :: '0' :: '0' :: '0' :: [])
  else
    qdStrftime dto utcoffset

/-- Days from the civil epoch for a proleptic-Gregorian date (the calendar
arithmetic underlying Python `datetime + timedelta`). -/
def daysFromCivil (y m d : Int) : Int :=
  let y1 := if m ≤ 2 then y - 1 else y
  let era := Int.fdiv y1 400
  let yoe := y1 - era * 400
  let mp := if 2 < m then m - 3 else m + 9
  let doy := Int.fdiv (153 * mp + 2) 5 + d - 1
  let doe := yoe * 365 + Int.fdiv yoe 4 - Int.fdiv yoe 100 + doy
  era * 146097 + doe - 719468

/-- Civil date of an epoch day count (inverse of `daysFromCivil`). -/
def civilFromDays (z : Int) : Int × Int × Int :=
  let z1 := z + 719468
  let era := Int.fdiv z1 146097
  let doe := z1 - era * 146097
  let yoe := Int.fdiv (doe - Int.fdiv doe 1460 + Int.fdiv doe 36524 - Int.fdiv doe 146096) 365
  let y := yoe + era * 400
  let doy := doe - (365 * yoe + Int.fdiv yoe 4 - Int.fdiv yoe 100)
  let mp := Int.fdiv (5 * doy + 2) 153
  let d := doy - Int.fdiv (153 * mp + 2) 5 + 1
  let m := if mp < 10 then mp + 3 else mp - 9
  (if m ≤ 2 then y + 1 else y, m, d)

/-- Microseconds since the civil epoch of a datetime. -/
def dtToEpochMicro (e : Datetime) : Int :=
  daysFromCivil e.year e.month e.day * 86400000000 +
    ((e.hour * 3600 + e.minute * 60 + e.second : Nat) : Int) * 1000000 + e.micro

/-- Datetime at a microsecond epoch instant. -/
def dtOfEpochMicro (t : Int) : Datetime :=
  let days := Int.fdiv t 86400000000
  let rem := (t - days * 86400000000).toNat
  let c := civilFromDays days
  { year := c.1.toNat, month := c.2.1.toNat, day := c.2.2.toNat,
    hour := rem / 3600000000, minute := rem / 60000000 % 60,
    second := rem / 1000000 % 60, micro := rem % 1000000 }

/-- Python `now + timedelta(seconds=expires_in)` (line 128). -/
def addSeconds (e : Datetime) (s : Int) : Datetime :=
  dtOfEpochMicro (dtToEpochMicro e + s * 1000000)

/-- The value held by `self.expiry_date`: unset before any assignment, the
raw string loaded from `accessToken.json` in the cached path (line 60), or
a computed datetime after an exchange (line 128). -/
inductive ExpiryVal where
  | unset
  | str (s : PyStr)
  | dt (e : Datetime)
  deriving DecidableEq

/-- A brokerage account as consumed by the client (its `type` and `number`
fields). -/
structure Account where
  type : PyStr
  number : PyStr
  deriving DecidableEq

/-- The payload of a successful `GET /v1/accounts` (lines 164-165). -/
structure AccountsData where
  userId : Int
  accounts : List Account
  deriving DecidableEq

/-- The JSON body of a successful token exchange (lines 110-115). -/
structure ExchangeBody where
  access_token : PyStr
  token_type : PyStr
  api_server : PyStr
  refresh_token : PyStr
  expires_in : Int
  deriving DecidableEq

/-- The record persisted in `accessToken.json`: the exchange body as
returned by the server (the `api_server` field is persisted unsliced; only
the instance attribute gets `[:-1]`) plus the serialized `expiry_date`
added at line 129. -/
structure CachedRecord where
  access_token : PyStr
  token_type : PyStr
  api_server : PyStr
  refresh_token : PyStr
  expires_in : Int
  expiry_date : PyStr
  deriving DecidableEq

/-- The mutable attributes of a `Trader` instance that the credential
lifecycle touches. -/
structure TraderState where
  rt_file : PyStr
  server_type : PyStr
  access_token : PyStr := []
  token_type : PyStr := []
  api_server : PyStr := []
  refresh_token : PyStr := []
  expires_in : Int := 0
  expiry_date : ExpiryVal := .unset
  accountsData : Option AccountsData := none
  deriving DecidableEq

/-- `self.server_url[self.server_type]` (lines 45-48, 102): the two
configured exchange URLs; any other key raises `KeyError` in Python. -/
def serverUrl (server_type : PyStr) : Option PyStr :=
  if server_type = "live".data then
    some "https://login.questrade.com/oauth2/token".data
  else if server_type = "test".data then
    some "https://practicelogin.questrade.com/oauth2/token".data
  else none

/-- The token-exchange request URL: the base with the query parameters
`grant_type=refresh_token&refresh_token=<token>` attached by `requests`
(percent-encoding is the identity on the URL-safe opaque tokens). -/
def exchangeRequestUrl (base token : PyStr) : PyStr :=
  base ++ "?grant_type=refresh_token&refresh_token=".data ++ token

/-- External outcomes of one `get_new_refresh_token` call: the exchange
HTTP status and response body, whether each of the two file writes
succeeds (the record write split into its `open` and `json.dump` steps),
and the instant `dt.now()` observed at line 127. -/
structure RefreshEnv where
  status : Nat
  body : ExchangeBody
  rtWriteOk : Bool
  recordOpenOk : Bool
  recordDumpOk : Bool
  now : Datetime
  deriving DecidableEq

/-- The file writes one `get_new_refresh_token` call performed: contents
written to `rt_file` and to `accessToken.json` (none if failed or never
reached). -/
structure FileEffects where
  rtFileWrite : Option PyStr
  recordWrite : Option CachedRecord
  deriving DecidableEq

/-- Result of `get_new_refresh_token`: success; the authorization failure
of lines 104-108, which reports the request URL and the status code and
raises; the persistence failure of lines 131-134; or the `KeyError` an
unknown `server_type` raises at line 102. -/
inductive RefreshOutcome where
  | ok (st : TraderState) (eff : FileEffects)
  | authError (url : PyStr) (status : Nat) (st : TraderState) (eff : FileEffects)
  | persistError (st : TraderState) (eff : FileEffects)
  | keyError (st : TraderState)
  deriving DecidableEq

/-- Assignment of the exchange body to the instance attributes
(lines 111-115), with `api_server` sliced by `[:-1]` (line 113). -/
def applyExchangeBody (st : TraderState) (b : ExchangeBody) : TraderState :=
  { st with access_token := b.access_token, token_type := b.token_type,
            api_server := pyDropLast b.api_server, refresh_token := b.refresh_token,
            expires_in := b.expires_in }

/-- Models `Trader.get_new_refresh_token` (lines 88-134).
`raise_for_status` raises exactly for statuses at least 400; on that path
the attributes are untouched and nothing is written.  On success the
attributes are assigned (lines 111-115), the new refresh token is written
to `rt_file` with failure only logged (lines 119-124), then
`accessToken.json` is written with `expiry_date = now + expires_in`
seconds serialized as `str(...)[:-7]` (lines 125-130); failure to open the
record file raises before `self.expiry_date` is assigned, failure during
`json.dump` raises after. -/
def get_new_refresh_token (st : TraderState) (env : RefreshEnv) (token : PyStr) :
    RefreshOutcome :=
  match serverUrl st.server_type with
  | none => .keyError st
  | some base =>
    if 400 ≤ env.status then
      .authError (exchangeRequestUrl base token) env.status st ⟨none, none⟩
    else
      let st1 := applyExchangeBody st env.body
      let rtEff : Option PyStr := if env.rtWriteOk then some st1.refresh_token else none
      if env.recordOpenOk then
        let expiry := addSeconds env.now env.body.expires_in
        let st2 := { st1 with expiry_date := .dt expiry }
        if env.recordDumpOk then
          .ok st2 ⟨rtEff, some ⟨env.body.access_token, env.body.token_type,
            env.body.api_server, env.body.refresh_token, env.body.expires_in,
            persistExpiryString expiry⟩⟩
        else
          .persistError st2 ⟨rtEff, none⟩
      else
        .persistError st1 ⟨rtEff, none⟩

/-- External outcomes of one `Trader.__init__` run: the `accessToken.json`
load (none on any open/JSON/key failure), the `dt.now()` of line 62, the
accounts probe of line 67, the `rt_file` read of line 76, the environment
of the inner `get_new_refresh_token` call, and the accounts fetch of
line 79. -/
structure InitEnv where
  cachedLoad : Option CachedRecord
  now : Datetime
  probeResult : Option AccountsData
  rtFileContent : Option PyStr
  refreshEnv : RefreshEnv
  postAccounts : Option AccountsData
  deriving DecidableEq

/-- Result of construction: a ready instance, or process termination via
`sys.exit(1)` (line 85 and `_report_and_exit`). -/
inductive InitResult where
  | ok (st : TraderState)
  | exit1
  deriving DecidableEq

/-- Assignment of a loaded cached record to the instance attributes
(lines 55-60), with `api_server` sliced by `[:-1]` (line 57). -/
def applyCachedRecord (st : TraderState) (rd : CachedRecord) : TraderState :=
  { st with access_token := rd.access_token, token_type := rd.token_type,
            api_server := pyDropLast rd.api_server, refresh_token := rd.refresh_token,
            expires_in := rd.expires_in, expiry_date := .str rd.expiry_date }

/-- The cache-reuse attempt of lines 52-73, the body of the outer `try`.
`Except.error` carries the state as mutated so far whenever a step raises:
file/JSON/key failure, `strptime` failure, an expired token (line 73), or
a failed accounts probe — whose `_report_and_exit` raises `SystemExit`,
caught by the bare inner `except:` of line 70 and converted into the
`Exception` that the bare outer `except:` of line 74 catches. -/
def initFromCache (st : TraderState) (env : InitEnv) : Except TraderState TraderState :=
  match env.cachedLoad with
  | none => .error st
  | some rd =>
    let st := applyCachedRecord st rd
    match strptimeX rd.expiry_date with
    | none => .error st
    | some dto =>
      if dtKey env.now ≤ dtKey dto then
        match env.probeResult with
        | some acc => .ok { st with accountsData := some acc }
        | none => .error st
      else
        .error st

/-- Python `str.strip()` as applied to the refresh-token file content
(line 77): whitespace removed from both ends. -/
def pyStrip (s : PyStr) : PyStr :=
  ((s.dropWhile Char.isWhitespace).reverse.dropWhile Char.isWhitespace).reverse

/-- The re-authentication path of lines 75-85 (construction step 4): read
and strip the token from `rt_file`, exchange it, then fetch the accounts;
any failure on this path prints guidance and exits the process (the
post-exchange accounts failure exits inside `_report_and_exit`, the others
via line 85). -/
def initFromRtFile (st : TraderState) (env : InitEnv) : InitResult :=
  match env.rtFileContent with
  | none => .exit1
  | some raw =>
    let tok := pyStrip raw
    let st := { st with refresh_token := tok }
    match get_new_refresh_token st env.refreshEnv tok with
    | .ok st1 _ =>
      match env.postAccounts with
      | some acc => .ok { st1 with accountsData := some acc }
      | none => .exit1
    | _ => .exit1

/-- Models `Trader.__init__` (lines 12-85): try the cached record first,
fall back to the `rt_file` exchange path on any failure. -/
def traderInit (rt_file server_type : PyStr) (env : InitEnv) : InitResult :=
  let st0 : TraderState := { rt_file := rt_file, server_type := server_type }
  match initFromCache st0 env with
  | .ok st => .ok st
  | .error st => initFromRtFile st env

/-- A concrete exchange body used by the witnesses. -/
def sampleBody : ExchangeBody :=
  ⟨"AT2".data, "Bearer".data, "https://api02.iq.questrade.com/".data, "RT2".data, 1800⟩

/-- A concrete successful refresh environment used by the witnesses. -/
def sampleRefreshEnvOk : RefreshEnv :=
  ⟨200, sampleBody, true, true, true, Datetime.mk 2024 1 1 0 0 0 500⟩

/-- A concrete cached record with a far-future, parseable expiry. -/
def sampleCachedRecord : CachedRecord :=
  ⟨"AT".data, "Bearer".data, "https://api01.iq.questrade.com/".data, "RT".data, 1800,
    "2030-01-01 00:00:00".data⟩

/-- A concrete construction environment: live cached record, failing
accounts probe, readable `rt_file`, successful exchange and accounts
fetch afterwards. -/
def sampleInitEnvProbeFail : InitEnv :=
  ⟨some sampleCachedRecord, Datetime.mk 2024 1 1 0 0 0 0, none,
    some " MANUAL123 ".data, sampleRefreshEnvOk,
    some ⟨111, [⟨"Margin".data, "123".data⟩]⟩⟩

/-- A concrete trader state used by the refresh witnesses. -/
def sampleTraderState : TraderState :=
  { rt_file := "refreshToken".data, server_type := "live".data }

theorem daysOf_eq_ediv (d : Int) : daysOf d = d / 86400000000 := by
  unfold daysOf usPerDay
  exact Int.fdiv_eq_ediv d (by decide)

theorem le_of_daysOf_gt {d : Int} (h : 29 < daysOf d) : 2592000000000 ≤ d := by
  rw [daysOf_eq_ediv] at h
  omega

theorem usPerDay_le_of_one_le_daysOf {d : Int} (h : 1 ≤ daysOf d) : 86400000000 ≤ d := by
  rw [daysOf_eq_ediv] at h
  omega

theorem one_le_daysOf {d : Int} (h : 86400000000 ≤ d) : 1 ≤ daysOf d := by
  rw [daysOf_eq_ediv]
  omega

theorem lt_of_daysOf_le {d : Int} (h : daysOf d ≤ 29) : d < 2592000000000 := by
  rw [daysOf_eq_ediv] at h
  omega

theorem daysOf_le_29_of_le {d : Int} (h : d ≤ 2505600000000) : daysOf d ≤ 29 := by
  rw [daysOf_eq_ediv]
  omega

theorem chunkLoop_ne_nil {c e : Int} (h : 86400000000 ≤ e - c) : chunkLoop c e ≠ [] := by
  rw [chunkLoop]
  by_cases h1 : 29 < daysOf (e - c)
  · simp [h1]
  · have h2 : 1 ≤ daysOf (e - c) := one_le_daysOf h
    simp [h1, h2]

theorem chunkLoop_head {c e : Int} (h : 86400000000 ≤ e - c) :
    (chunkLoop c e).head?.map Prod.fst = some c := by
  rw [chunkLoop]
  by_cases h1 : 29 < daysOf (e - c)
  · simp [h1]
  · have h2 : 1 ≤ daysOf (e - c) := one_le_daysOf h
    simp [h1, h2]

theorem getLast?_cons_of_ne_nil' {α : Type} (a : α) :
    ∀ {l : List α}, l ≠ [] → (a :: l).getLast? = l.getLast?
  | [], h => absurd rfl h
  | _ :: _, _ => List.getLast?_cons_cons

theorem dropLast_cons_of_ne_nil' {α : Type} (a : α) :
    ∀ {l : List α}, l ≠ [] → (a :: l).dropLast = a :: l.dropLast
  | [], h => absurd rfl h
  | _ :: _, _ => rfl

theorem chunkLoop_getLast : ∀ c e : Int, 86400000000 ≤ e - c →
    ∃ p : Int × Int, (chunkLoop c e).getLast? = some p ∧ p.2 = e ∧ 86400000000 ≤ e - p.1 := by
  intro c e
  induction c, e using chunkLoop.induct with
  | case1 c e h1 ih =>
    intro _
    have h30 := le_of_daysOf_gt h1
    have h' : (86400000000 : Int) ≤ e - (c + stride) := by
      simp only [stride, usPerDay]; omega
    obtain ⟨p, hp1, hp2, hp3⟩ := ih h'
    refine ⟨p, ?_, hp2, hp3⟩
    rw [chunkLoop, if_pos h1, getLast?_cons_of_ne_nil' _ (chunkLoop_ne_nil h')]
    exact hp1
  | case2 c e h1 h2 =>
    intro h
    exact ⟨(c, e), by rw [chunkLoop, if_neg h1, if_pos h2]; rfl, rfl, by simpa using h⟩
  | case3 c e h1 h2 =>
    intro h
    exact absurd (one_le_daysOf h) h2

theorem chunkLoop_chain : ∀ c e : Int,
    (chunkLoop c e).Chain' (fun p q : Int × Int => p.2 = q.1) := by
  intro c e
  induction c, e using chunkLoop.induct with
  | case1 c e h1 ih =>
    rw [chunkLoop, if_pos h1, List.chain'_cons']
    refine ⟨?_, ih⟩
    intro q hq
    have h30 := le_of_daysOf_gt h1
    have h' : (86400000000 : Int) ≤ e - (c + stride) := by
      simp only [stride, usPerDay]; omega
    have hh := chunkLoop_head h'
    rw [Option.mem_def] at hq
    rw [hq] at hh
    simp only [Option.map_some', Option.some.injEq] at hh
    exact hh.symm
  | case2 c e h1 h2 =>
    rw [chunkLoop, if_neg h1, if_pos h2]
    simp
  | case3 c e h1 h2 =>
    rw [chunkLoop, if_neg h1, if_neg h2]
    simp

theorem chunkLoop_dropLast : ∀ c e : Int, ∀ p ∈ (chunkLoop c e).dropLast,
    p.2 - p.1 = stride := by
  intro c e
  induction c, e using chunkLoop.induct with
  | case1 c e h1 ih =>
    rw [chunkLoop, if_pos h1]
    have h30 := le_of_daysOf_gt h1
    have h' : (86400000000 : Int) ≤ e - (c + stride) := by
      simp only [stride, usPerDay]; omega
    rw [dropLast_cons_of_ne_nil' _ (chunkLoop_ne_nil h')]
    intro p hp
    rcases List.mem_cons.mp hp with hh | hh
    · subst hh; simp only [stride, usPerDay]; omega
    · exact ih p hh
  | case2 c e h1 h2 =>
    rw [chunkLoop, if_neg h1, if_pos h2]
    intro p hp
    simp at hp
  | case3 c e h1 h2 =>
    rw [chunkLoop, if_neg h1, if_neg h2]
    intro p hp
    simp at hp

theorem chunkLoop_bounds : ∀ c e : Int, ∀ p ∈ chunkLoop c e,
    0 < p.2 - p.1 ∧ p.2 - p.1 < 30 * 86400000000 := by
  intro c e
  induction c, e using chunkLoop.induct with
  | case1 c e h1 ih =>
    rw [chunkLoop, if_pos h1]
    intro p hp
    rcases List.mem_cons.mp hp with hh | hh
    · subst hh
      constructor <;> · simp only [stride, usPerDay]; omega
    · exact ih p hh
  | case2 c e h1 h2 =>
    rw [chunkLoop, if_neg h1, if_pos h2]
    intro p hp
    simp only [List.mem_singleton] at hp
    subst hp
    have ha := usPerDay_le_of_one_le_daysOf h2
    have hb : e - c < 2592000000000 := lt_of_daysOf_le (by omega)
    constructor <;> omega
  | case3 c e h1 h2 =>
    rw [chunkLoop, if_neg h1, if_neg h2]
    intro p hp
    simp at hp

/-- C1: for `enddt - startdt > 29` days the yielded sub-ranges form a
contiguous, monotonically increasing partition of the half-open range:
every non-final sub-range is exactly 29 days, each sub-range begins where
the previous one ended, and the final sub-range `(cursor, enddt)` is
yielded with a tail of at least 1 day (the code's sub-day-drop branch at
line 219 in fact never fires: the tail after the loop is always ≥ 1 day,
so the iff in the claim holds with both sides always true). -/
theorem get_all_chunks_partition_of_gt_29_days (startdt enddt : Int)
    (h : 29 * usPerDay < enddt - startdt) :
    ChunkListCovers startdt enddt (get_all_chunks startdt enddt) := by
  have husp : (2505600000000 : Int) < enddt - startdt := by
    simpa [usPerDay] using h
  unfold get_all_chunks
  by_cases h1 : daysOf (enddt - startdt) ≤ 29
  · rw [if_pos h1]
    refine ⟨by simp, by simp, by simp, by simp, by simp, ?_, ?_⟩
    · intro p hp
      simp only [List.mem_singleton] at hp
      subst hp
      simp only
      omega
    · intro p hp
      simp only [List.getLast?_singleton, Option.some.injEq] at hp
      subst hp
      simp only [usPerDay]
      omega
  · rw [if_neg h1]
    have h30 : 2592000000000 ≤ enddt - startdt := le_of_daysOf_gt (by omega)
    have h' : (86400000000 : Int) ≤ enddt - (startdt + stride) := by
      simp only [stride, usPerDay]; omega
    have hne := chunkLoop_ne_nil h'
    refine ⟨by simp, by simp, ?_, ?_, ?_, ?_, ?_⟩
    · obtain ⟨q, hq1, hq2, _⟩ := chunkLoop_getLast _ _ h'
      rw [getLast?_cons_of_ne_nil' _ hne, hq1]
      simp [hq2]
    · rw [List.chain'_cons']
      refine ⟨?_, chunkLoop_chain _ _⟩
      intro q hq
      have hh := chunkLoop_head h'
      rw [Option.mem_def] at hq
      rw [hq] at hh
      simp only [Option.map_some', Option.some.injEq] at hh
      exact hh.symm
    · rw [dropLast_cons_of_ne_nil' _ hne]
      intro p hp
      rcases List.mem_cons.mp hp with hh | hh
      · subst hh; simp only [stride, usPerDay]; omega
      · exact chunkLoop_dropLast _ _ p hh
    · intro p hp
      rcases List.mem_cons.mp hp with hh | hh
      · subst hh
        simp only [stride, usPerDay]
        omega
      · have := (chunkLoop_bounds _ _ p hh).1
        omega
    · intro p hp
      rw [getLast?_cons_of_ne_nil' _ hne] at hp
      obtain ⟨q, hq1, _, hq3⟩ := chunkLoop_getLast _ _ h'
      rw [hq1] at hp
      injection hp with hp
      subst hp
      simpa [usPerDay] using hq3

/-- Witness for C1 at the documented boundary example: with the epoch at
2024-01-01 00:00:00, the end 2024-03-15 is 74 days = 6393600000000 us later,
and exactly the three chunks [01-01,01-30), [01-30,02-28), [02-28,03-15)
(days 0/29/58/74) are produced. -/
theorem get_all_chunks_partition_witness :
    (29 * usPerDay < (6393600000000 : Int) - 0) ∧
    ChunkListCovers 0 6393600000000 (get_all_chunks 0 6393600000000) ∧
    get_all_chunks 0 6393600000000 =
      [(0, 2505600000000), (2505600000000, 5011200000000), (5011200000000, 6393600000000)] := by
  refine ⟨by decide, get_all_chunks_partition_of_gt_29_days 0 6393600000000 (by decide), ?_⟩
  rw [get_all_chunks, if_neg (by decide)]
  rw [chunkLoop, if_pos (by decide)]
  rw [chunkLoop, if_neg (by decide), if_pos (by decide)]
  decide

/-- C2: when the span `enddt - startdt` is at most 29 days (with `enddt`
defaulting to the current instant when omitted), the generator yields
exactly one result: the wrapped query applied to the unmodified bounds. -/
theorem get_all_inner_single_of_le_29_days {α : Type} (Q : Int → Int → α)
    (startdt : Int) (enddtOpt : Option Int) (now : Int)
    (h : enddtOpt.getD now - startdt ≤ 29 * usPerDay) :
    get_all_inner Q startdt enddtOpt now = [Q startdt (enddtOpt.getD now)] := by
  have h' : enddtOpt.getD now - startdt ≤ 2505600000000 := by
    simp only [usPerDay] at h
    omega
  unfold get_all_inner get_all_chunks
  rw [if_pos (daysOf_le_29_of_le h')]
  simp

/-- Witness for C2: a one-day span with the end omitted (bound to `now`)
yields the single query over the unmodified bounds. -/
theorem get_all_inner_single_witness :
    get_all_inner Prod.mk 0 none 86400000000 = [((0 : Int), (86400000000 : Int))] :=
  get_all_inner_single_of_le_29_days Prod.mk 0 none 86400000000 (by decide)

/-- Counterexample for C3: with `startdt = 0 ≤ enddt = 29 days + 1 hour`,
the single yielded sub-range is 29 days and 1 hour long, exceeding 29 days,
so not every issued query covers a sub-range of at most 29 days. -/
theorem get_all_chunks_le_29_days_counterexample :
    (0 : Int) ≤ 2509200000000 ∧
    ¬ (∀ p ∈ get_all_chunks 0 2509200000000, p.2 - p.1 ≤ 29 * usPerDay) := by
  constructor
  · decide
  · intro hall
    have hmem : ((0 : Int), (2509200000000 : Int)) ∈ get_all_chunks 0 2509200000000 := by
      decide
    have := hall _ hmem
    simp only [usPerDay] at this
    omega

/-- C3 amended: every yielded query covers a sub-range strictly shorter
than 30 days (equivalently, its floor in whole days is at most 29) — the
non-final sub-ranges are exactly 29 days, but the single-chunk case and the
final sub-range may be up to just under 30 days long. -/
theorem get_all_chunks_lt_30_days (startdt enddt : Int) (h : startdt ≤ enddt) :
    ∀ p ∈ get_all_chunks startdt enddt, p.2 - p.1 < 30 * usPerDay := by
  unfold get_all_chunks
  by_cases h1 : daysOf (enddt - startdt) ≤ 29
  · rw [if_pos h1]
    intro p hp
    simp only [List.mem_singleton] at hp
    subst hp
    have := lt_of_daysOf_le h1
    simp only [usPerDay]
    omega
  · rw [if_neg h1]
    intro p hp
    rcases List.mem_cons.mp hp with hh | hh
    · subst hh
      simp only [stride, usPerDay]
      omega
    · have := (chunkLoop_bounds _ _ p hh).2
      simp only [usPerDay]
      omega

/-- Witness for C3 (amended) at the same concrete input as the
counterexample: the 29-day-1-hour chunk is indeed under 30 days. -/
theorem get_all_chunks_lt_30_days_witness :
    (0 : Int) ≤ 2509200000000 ∧
    ((2509200000000 : Int) - (0 : Int) < 30 * usPerDay) := by
  have hmem : ((0 : Int), (2509200000000 : Int)) ∈ get_all_chunks 0 2509200000000 := by
    decide
  exact ⟨by decide, get_all_chunks_lt_30_days 0 2509200000000 (by decide) _ hmem⟩

theorem digitVal?_digitChar9 : ∀ d : Nat, d < 10 → digitVal? (digitChar9 d) = some d := by
  decide

theorem parse2_pad2 (n : Nat) (h : n ≤ 99) (rest : PyStr) :
    parse2 (pad2 n ++ rest) = some (n, rest) := by
  have h1 : n / 10 < 10 := by omega
  have h2 : n % 10 < 10 := by omega
  simp only [pad2, List.cons_append, List.nil_append, parse2,
    digitVal?_digitChar9 _ h1, digitVal?_digitChar9 _ h2]
  have : n / 10 * 10 + n % 10 = n := by omega
  rw [this]

theorem parse4_pad4 (n : Nat) (h : n ≤ 9999) (rest : PyStr) :
    parse4 (pad4 n ++ rest) = some (n, rest) := by
  have h1 : n / 1000 < 10 := by omega
  have h2 : n / 100 % 10 < 10 := by omega
  have h3 : n / 10 % 10 < 10 := by omega
  have h4 : n % 10 < 10 := by omega
  simp only [pad4, List.cons_append, List.nil_append, parse4,
    digitVal?_digitChar9 _ h1, digitVal?_digitChar9 _ h2,
    digitVal?_digitChar9 _ h3, digitVal?_digitChar9 _ h4]
  have : ((n / 1000 * 10 + n / 100 % 10) * 10 + n / 10 % 10) * 10 + n % 10 = n := by omega
  rw [this]

theorem expectChar_cons (c : Char) (rest : PyStr) : expectChar c (c :: rest) = some rest := by
  simp [expectChar]

theorem parse2_pad2_nil (n : Nat) (h : n ≤ 99) : parse2 (pad2 n) = some (n, []) := by
  have h0 := parse2_pad2 n h []
  simpa using h0

theorem strptimeX_strOfDatetimeSec (e : Datetime) (hv : e.Valid) :
    strptimeX (strOfDatetimeSec e) = some (dtFloorSec e) := by
  obtain ⟨h1, h2, h3, h4, h5, h6, h7, h8, h9, h10⟩ := hv
  simp only [strOfDatetimeSec, strptimeX, List.cons_append, List.append_assoc,
    parse4_pad4 e.year (by omega),
    expectChar_cons,
    parse2_pad2 e.month (by omega),
    parse2_pad2 e.day (by omega),
    parse2_pad2 e.hour (by omega),
    parse2_pad2 e.minute (by omega),
    parse2_pad2_nil e.second (by omega)]
  rfl

theorem strOfDatetimeSec_length (e : Datetime) : (strOfDatetimeSec e).length = 19 := by
  simp [strOfDatetimeSec, pad4, pad2]

theorem persistExpiryString_of_micro_ne (e : Datetime) (h : e.micro ≠ 0) :
    persistExpiryString e = strOfDatetimeSec e := by
  unfold persistExpiryString strOfDatetime pySliceToMinus7
  rw [if_neg h]
  have hlen : (strOfDatetimeSec e ++ '.' :: pad6 e.micro).length = 26 := by
    simp [strOfDatetimeSec_length, pad6]
  rw [hlen]
  have h19 : (26 : Nat) - 7 = (strOfDatetimeSec e).length := by
    rw [strOfDatetimeSec_length]
  rw [h19, List.take_left]

/-- C7 amended: a credential record persisted by a successful
`get_new_refresh_token` whose computed `expiry_date` has a nonzero
microsecond component reloads and parses to the seconds-truncated expiry,
and against any second-precision instant `now` the stored expiry gives the
same liveness verdict as the in-memory one.  (When the microsecond
component is zero the serialization is corrupted and reload fails to
parse; see the counterexample.) -/
theorem persisted_expiry_roundtrip (e : Datetime) (hv : e.Valid) (hm : e.micro ≠ 0) :
    strptimeX (persistExpiryString e) = some (dtFloorSec e) ∧
    ∀ n : Datetime, n.micro = 0 →
      (dtKey n ≤ dtKey (dtFloorSec e) ↔ dtKey n ≤ dtKey e) := by
  constructor
  · rw [persistExpiryString_of_micro_ne e hm]
    exact strptimeX_strOfDatetimeSec e hv
  · intro n hn
    have hμ : e.micro ≤ 999999 := hv.2.2.2.2.2.2.2.2.2
    unfold dtKey dtFloorSec
    simp only [hn]
    omega

/-- C7 counterexample: an expiry landing exactly on a whole second (a valid
datetime `dt.now()` can produce) serializes without the `.ffffff` part, so
`str(...)[:-7]` truncates into the hour field and the reload parse of
construction fails, contradicting the unconditional round-trip claim. -/
theorem persisted_expiry_roundtrip_counterexample :
    (Datetime.mk 2024 1 1 12 30 0 0).Valid ∧
    strptimeX (persistExpiryString (Datetime.mk 2024 1 1 12 30 0 0)) = none := by
  exact ⟨by decide, by decide⟩

/-- Witness for C7 (amended) at a concrete expiry with microseconds. -/
theorem persisted_expiry_roundtrip_witness :
    ((Datetime.mk 2024 1 1 12 30 0 500000).Valid ∧
      (Datetime.mk 2024 1 1 12 30 0 500000).micro ≠ 0) ∧
    strptimeX (persistExpiryString (Datetime.mk 2024 1 1 12 30 0 500000)) =
      some (Datetime.mk 2024 1 1 12 30 0 0) ∧
    ((dtKey (Datetime.mk 2024 1 1 12 30 0 0) ≤ dtKey (Datetime.mk 2024 1 1 12 30 0 0)) ↔
      (dtKey (Datetime.mk 2024 1 1 12 30 0 0) ≤ dtKey (Datetime.mk 2024 1 1 12 30 0 500000))) := by
  have h := persisted_expiry_roundtrip (Datetime.mk 2024 1 1 12 30 0 500000)
    (by decide) (by decide)
  exact ⟨⟨by decide, by decide⟩, h.1, h.2 (Datetime.mk 2024 1 1 12 30 0 0) rfl⟩

/-- C9: the `stateFilter` query value sent by `get_account_orders` is
exactly one of `Open`, `Closed`, `All`, chosen only by the first letter of
the lowercased input: `Open` iff it starts with `o`, `Closed` iff it does
not start with `o` but starts with `c`, and `All` in every other case; no
input is rejected. -/
theorem stateFilterParam_cases (s : PyStr) :
    (stateFilterParam s = "Open".data ∨ stateFilterParam s = "Closed".data ∨
      stateFilterParam s = "All".data) ∧
    (stateFilterParam s = "Open".data ↔ pyStartsWith "o".data (pyLower s) = true) ∧
    (stateFilterParam s = "Closed".data ↔
      (pyStartsWith "o".data (pyLower s) = false ∧
        pyStartsWith "c".data (pyLower s) = true)) ∧
    (stateFilterParam s = "All".data ↔
      (pyStartsWith "o".data (pyLower s) = false ∧
        pyStartsWith "c".data (pyLower s) = false)) := by
  unfold stateFilterParam
  by_cases h1 : pyStartsWith "o".data (pyLower s) = true <;>
    by_cases h2 : pyStartsWith "c".data (pyLower s) = true <;>
      simp [h1, h2]

/-- Witness for C9: a mixed-case input mapping to `Closed`. -/
theorem stateFilterParam_witness : stateFilterParam "CloSed".data = "Closed".data := by
  have h := stateFilterParam_cases "CloSed".data
  exact h.2.2.1.mpr (by decide)

/-- C10: with `gmt = true` the produced string is exactly `dto`'s own
date and time fields followed by the fixed suffix `+00:00` — the result of
the `tzinfo` replacement is discarded, so the wall-clock time is never
converted to UTC and the local offset plays no role — while with
`gmt = false` the same fields are formatted with the local UTC offset
split as `off[:3] : off[-2:]`. -/
theorem object_to_qdstr_spec (localOffset : PyStr) (dto : Datetime) :
    object_to_qdstr localOffset dto true =
      qdBase dto ++ ('+' :: '0' :: '0' :: ':' :: '0' :: '0' :: []) ∧
    object_to_qdstr localOffset dto false =
      qdBase dto ++ (localOffset.take 3 ++ ':' :: pyLastTwo localOffset) := by
  constructor
  · show qdStrftime dto ('+' :: '0' :: '0' :: '0' :: '0' :: []) = _
    unfold qdStrftime pyLastTwo
    simp
  · rfl

/-- Witness for C10 with the local offset `-0500` and the docstring's
example datetime 2011-02-01 00:00:00. -/
theorem object_to_qdstr_spec_witness :
    object_to_qdstr "-0500".data (Datetime.mk 2011 2 1 0 0 0 0) true =
      "2011-02-01T00:00:00+00:00".data ∧
    object_to_qdstr "-0500".data (Datetime.mk 2011 2 1 0 0 0 0) false =
      "2011-02-01T00:00:00-05:00".data := by
  have h := object_to_qdstr_spec "-0500".data (Datetime.mk 2011 2 1 0 0 0 0)
  refine ⟨?_, ?_⟩
  · rw [h.1]; decide
  · rw [h.2]; decide

/-- C8 counterexample: the stored `api_server` is `rd["api_server"][:-1]`
(lines 57 and 113), which removes the last character unconditionally; an
input with no trailing slash is not stored unchanged — it loses its final
character. -/
theorem api_server_strip_counterexample :
    pyDropLast "https://api01.iq.questrade.com".data ≠
      "https://api01.iq.questrade.com".data ∧
    pyDropLast "https://api01.iq.questrade.com".data =
      "https://api01.iq.questrade.co".data := by
  exact ⟨by decide, by decide⟩

/-- C8 amended: the stored `api_server` is the input with its final
character removed; when the input ends in a slash this strips exactly the
trailing slash, but a nonempty input not ending in a slash is changed (its
last character is lost) rather than stored unchanged. -/
theorem api_server_strip_spec (s : PyStr) :
    (s.getLast? = some '/' → pyDropLast s ++ ['/'] = s) ∧
    (s ≠ [] → s.getLast? ≠ some '/' → pyDropLast s ≠ s) := by
  constructor
  · intro h
    have hne : s ≠ [] := by
      intro he
      rw [he] at h
      simp at h
    have hl : s.getLast hne = '/' := by
      have := List.getLast?_eq_getLast s hne
      rw [this] at h
      injection h
    calc pyDropLast s ++ ['/'] = s.dropLast ++ [s.getLast hne] := by rw [hl]; rfl
    _ = s := List.dropLast_append_getLast hne
  · intro hne _ heq
    have hlen : s.dropLast.length = s.length - 1 := List.length_dropLast s
    have hpos : 0 < s.length := List.length_pos.mpr hne
    have hsame : (pyDropLast s).length = s.length := by rw [heq]
    unfold pyDropLast at hsame
    omega

/-- Witness for C8 (amended): a slash-terminated server URL loses exactly
the slash, and a slashless one is altered. -/
theorem api_server_strip_spec_witness :
    (pyDropLast "https://api01.iq.questrade.com/".data ++ ['/'] =
      "https://api01.iq.questrade.com/".data) ∧
    pyDropLast "abc".data ≠ "abc".data := by
  refine ⟨(api_server_strip_spec "https://api01.iq.questrade.com/".data).1 (by decide),
    (api_server_strip_spec "abc".data).2 (by decide) (by decide)⟩

/-- C4: when a persisted credential record is found, its parsed expiry is
at least `now`, but the confirming accounts fetch fails, construction does
not propagate that failure: it falls through to the `rt_file` path,
reading the token and performing the full exchange of step 4. -/
theorem trader_init_probe_failure_falls_through
    (rt_file server_type : PyStr) (env : InitEnv) (rd : CachedRecord) (dto : Datetime)
    (hload : env.cachedLoad = some rd)
    (hparse : strptimeX rd.expiry_date = some dto)
    (hlive : dtKey env.now ≤ dtKey dto)
    (hprobe : env.probeResult = none) :
    traderInit rt_file server_type env =
      initFromRtFile
        (applyCachedRecord { rt_file := rt_file, server_type := server_type } rd) env := by
  unfold traderInit initFromCache
  simp only [hload, hparse, hprobe, if_pos hlive]

/-- Witness for C4 at a concrete environment whose probe fails. -/
theorem trader_init_probe_failure_witness :
    (sampleInitEnvProbeFail.cachedLoad = some sampleCachedRecord ∧
      strptimeX sampleCachedRecord.expiry_date = some (Datetime.mk 2030 1 1 0 0 0 0) ∧
      dtKey sampleInitEnvProbeFail.now ≤ dtKey (Datetime.mk 2030 1 1 0 0 0 0) ∧
      sampleInitEnvProbeFail.probeResult = none) ∧
    traderInit "refreshToken".data "live".data sampleInitEnvProbeFail =
      initFromRtFile
        (applyCachedRecord { rt_file := "refreshToken".data, server_type := "live".data }
          sampleCachedRecord)
        sampleInitEnvProbeFail := by
  refine ⟨⟨rfl, by decide, by decide, rfl⟩, ?_⟩
  exact trader_init_probe_failure_falls_through "refreshToken".data "live".data
    sampleInitEnvProbeFail sampleCachedRecord (Datetime.mk 2030 1 1 0 0 0 0)
    rfl (by decide) (by decide) rfl

/-- C5: a non-success exchange status makes `get_new_refresh_token` fail
with the request URL and status code reported, while the in-memory
credential record is untouched and nothing is written to disk. -/
theorem refresh_non_success_preserves_record
    (st : TraderState) (env : RefreshEnv) (token base : PyStr)
    (hurl : serverUrl st.server_type = some base)
    (hstatus : 400 ≤ env.status) :
    get_new_refresh_token st env token =
      .authError (exchangeRequestUrl base token) env.status st ⟨none, none⟩ := by
  unfold get_new_refresh_token
  simp only [hurl, if_pos hstatus]

/-- Witness for C5: a 400 response on the live server leaves the state
unchanged and reports the full request URL. -/
theorem refresh_non_success_witness :
    get_new_refresh_token sampleTraderState
        ⟨400, sampleBody, true, true, true, Datetime.mk 2024 1 1 0 0 0 500⟩ "TOK".data =
      .authError
        (exchangeRequestUrl "https://login.questrade.com/oauth2/token".data "TOK".data)
        400 sampleTraderState ⟨none, none⟩ :=
  refresh_non_success_preserves_record sampleTraderState
    ⟨400, sampleBody, true, true, true, Datetime.mk 2024 1 1 0 0 0 500⟩ "TOK".data
    "https://login.questrade.com/oauth2/token".data (by decide) (by decide)

/-- C6: after a successful exchange, a failed refresh-token-file write is
non-fatal — the call still completes with the updated in-memory record and
the persisted full record — whereas a failed full-record write (either at
`open` or at `json.dump`) makes the call fail with a persistence error. -/
theorem refresh_write_failure_modes
    (st : TraderState) (env : RefreshEnv) (token base : PyStr)
    (hurl : serverUrl st.server_type = some base)
    (hstatus : env.status < 400) :
    (env.rtWriteOk = false → env.recordOpenOk = true → env.recordDumpOk = true →
      get_new_refresh_token st env token =
        .ok { applyExchangeBody st env.body with
                expiry_date := .dt (addSeconds env.now env.body.expires_in) }
          ⟨none, some ⟨env.body.access_token, env.body.token_type, env.body.api_server,
            env.body.refresh_token, env.body.expires_in,
            persistExpiryString (addSeconds env.now env.body.expires_in)⟩⟩) ∧
    (env.recordOpenOk = false →
      get_new_refresh_token st env token =
        .persistError (applyExchangeBody st env.body)
          ⟨if env.rtWriteOk then some env.body.refresh_token else none, none⟩) ∧
    (env.recordOpenOk = true → env.recordDumpOk = false →
      get_new_refresh_token st env token =
        .persistError { applyExchangeBody st env.body with
            expiry_date := .dt (addSeconds env.now env.body.expires_in) }
          ⟨if env.rtWriteOk then some env.body.refresh_token else none, none⟩) := by
  have hns : ¬ 400 ≤ env.status := by omega
  refine ⟨?_, ?_, ?_⟩
  · intro h1 h2 h3
    unfold get_new_refresh_token
    simp only [hurl, if_neg hns, h1, h2, h3, if_true, if_false, Bool.false_eq_true,
      applyExchangeBody]
  · intro h1
    unfold get_new_refresh_token
    simp only [hurl, if_neg hns, h1, Bool.false_eq_true, if_false, applyExchangeBody]
  · intro h1 h2
    unfold get_new_refresh_token
    simp only [hurl, if_neg hns, h1, h2, if_true, Bool.false_eq_true, if_false,
      applyExchangeBody]

/-- Witness for C6: with the refresh-token write failing but the record
write succeeding, the call completes; with the record `open` failing it
fails with a persistence error. -/
theorem refresh_write_failure_witness :
    (get_new_refresh_token sampleTraderState
        ⟨200, sampleBody, false, true, true, Datetime.mk 2024 1 1 0 0 0 500⟩ "TOK".data =
      .ok { applyExchangeBody sampleTraderState sampleBody with
              expiry_date := .dt (addSeconds (Datetime.mk 2024 1 1 0 0 0 500) 1800) }
        ⟨none, some ⟨sampleBody.access_token, sampleBody.token_type, sampleBody.api_server,
          sampleBody.refresh_token, sampleBody.expires_in,
          persistExpiryString (addSeconds (Datetime.mk 2024 1 1 0 0 0 500) 1800)⟩⟩) ∧
    (get_new_refresh_token sampleTraderState
        ⟨200, sampleBody, true, false, true, Datetime.mk 2024 1 1 0 0 0 500⟩ "TOK".data =
      .persistError (applyExchangeBody sampleTraderState sampleBody)
        ⟨some sampleBody.refresh_token, none⟩) := by
  constructor
  · exact (refresh_write_failure_modes sampleTraderState
      ⟨200, sampleBody, false, true, true, Datetime.mk 2024 1 1 0 0 0 500⟩
      "TOK".data "https://login.questrade.com/oauth2/token".data
      (by decide) (by decide)).1 rfl rfl rfl
  · exact (refresh_write_failure_modes sampleTraderState
      ⟨200, sampleBody, true, false, true, Datetime.mk 2024 1 1 0 0 0 500⟩
      "TOK".data "https://login.questrade.com/oauth2/token".data
      (by decide) (by decide)).2.1 rfl

